import Mathlib

/-!
Verification of the flight-record validation and query core of
`flightparser.py` (classes `FlightValidator` and `FlightParser`).

The Python source is shallowly embedded: every record is a six-field
string structure, `datetime.strptime` with the two formats
`'%Y-%m-%d %H%M'` and `'%Y-%m-%d %H:%M'` is modelled by an explicit
backtracking matcher that follows CPython's `_strptime` field regexes,
and `float(...)` is modelled by a parser producing either `nan`,
`±inf`, or an exact decimal value `mant * 10 ^ exp10` (binary-float
rounding is not modelled; all prices in play are exact decimals).
Characters are treated over the ASCII repertoire.  Code that can raise
an uncaught exception is modelled with `Option`: `none` stands for an
exception escaping the function.
-/

/-- The Python whitespace characters recognised by `str.strip`, the
regex class `\s`, and `float`'s surrounding-whitespace stripping
(ASCII repertoire). -/
def isPySpace (c : Char) : Bool :=
  c = ' ' || c = '\t' || c = '\n' || c = '\r' || c = '\x0b' || c = '\x0c'

/-- Numeric value of an ASCII digit character. -/
def digitVal (c : Char) : Nat := c.toNat - 48

/-- Value of a list of ASCII digit characters read in base 10. -/
def digitsToNat (ds : List Char) : Nat :=
  ds.foldl (fun a c => a * 10 + digitVal c) 0

/-! ## Model of `datetime.strptime` for the two formats used in the source

CPython's `_strptime` compiles a format into a regex whose field
patterns are, for the directives appearing here:
`%Y` = four digits, `%m` = `1[0-2]|0[1-9]|[1-9]`,
`%d` = `3[01]|[12]\d|0[1-9]|[1-9]| [1-9]`,
`%H` = `2[0-3]|[0-1]\d|\d`, `%M` = `[0-5]\d|\d`; a whitespace run in
the format becomes `\s+`.  The regex is matched at the start of the
string; strptime fails unless the first match (in backtracking
priority order) consumes the whole string, and then the `datetime`
constructor checks calendar validity.  Each field matcher below
returns its candidate parses in that priority order. -/

structure DT where
  year : Nat
  month : Nat
  day : Nat
  hour : Nat
  minute : Nat
deriving DecidableEq

/-- Injective order-preserving key for comparing timestamps
(field ranges are below the mixed radixes 13/32/24/60). -/
def DT.key (d : DT) : Nat :=
  (((d.year * 13 + d.month) * 32 + d.day) * 24 + d.hour) * 60 + d.minute

/-- `%Y`: exactly four digits. -/
def reYear : List Char → List (Nat × List Char)
  | a :: b :: c :: d :: rest =>
    if a.isDigit && b.isDigit && c.isDigit && d.isDigit then
      [(((digitVal a * 10 + digitVal b) * 10 + digitVal c) * 10 + digitVal d, rest)]
    else []
  | _ => []

/-- A literal character of the format. -/
def reLit (c : Char) : List Char → List (List Char)
  | x :: rest => if x = c then [rest] else []
  | _ => []

/-- `%m`: `1[0-2]|0[1-9]|[1-9]`, alternatives in regex order. -/
def reMonth (cs : List Char) : List (Nat × List Char) :=
  (match cs with
   | '1' :: c :: rest => if c.isDigit && digitVal c ≤ 2 then [(10 + digitVal c, rest)] else []
   | _ => []) ++
  (match cs with
   | '0' :: c :: rest => if c.isDigit && 1 ≤ digitVal c then [(digitVal c, rest)] else []
   | _ => []) ++
  (match cs with
   | c :: rest => if c.isDigit && 1 ≤ digitVal c then [(digitVal c, rest)] else []
   | _ => [])

/-- `%d`: `3[01]|[12]\d|0[1-9]|[1-9]| [1-9]`, alternatives in regex order. -/
def reDay (cs : List Char) : List (Nat × List Char) :=
  (match cs with
   | '3' :: c :: rest => if c = '0' || c = '1' then [(30 + digitVal c, rest)] else []
   | _ => []) ++
  (match cs with
   | a :: c :: rest =>
     if (a = '1' || a = '2') && c.isDigit then [(digitVal a * 10 + digitVal c, rest)] else []
   | _ => []) ++
  (match cs with
   | '0' :: c :: rest => if c.isDigit && 1 ≤ digitVal c then [(digitVal c, rest)] else []
   | _ => []) ++
  (match cs with
   | c :: rest => if c.isDigit && 1 ≤ digitVal c then [(digitVal c, rest)] else []
   | _ => []) ++
  (match cs with
   | ' ' :: c :: rest => if c.isDigit && 1 ≤ digitVal c then [(digitVal c, rest)] else []
   | _ => [])

/-- `%H`: `2[0-3]|[0-1]\d|\d`, alternatives in regex order. -/
def reHour (cs : List Char) : List (Nat × List Char) :=
  (match cs with
   | '2' :: c :: rest => if c.isDigit && digitVal c ≤ 3 then [(20 + digitVal c, rest)] else []
   | _ => []) ++
  (match cs with
   | a :: c :: rest =>
     if (a = '0' || a = '1') && c.isDigit then [(digitVal a * 10 + digitVal c, rest)] else []
   | _ => []) ++
  (match cs with
   | c :: rest => if c.isDigit then [(digitVal c, rest)] else []
   | _ => [])

/-- `%M`: `[0-5]\d|\d`, alternatives in regex order. -/
def reMinute (cs : List Char) : List (Nat × List Char) :=
  (match cs with
   | a :: c :: rest =>
     if a.isDigit && digitVal a ≤ 5 && c.isDigit then [(digitVal a * 10 + digitVal c, rest)] else []
   | _ => []) ++
  (match cs with
   | c :: rest => if c.isDigit then [(c.toNat - 48, rest)] else []
   | _ => [])

/-- Length of the leading run of whitespace characters. -/
def spaceRun : List Char → Nat
  | c :: rest => if isPySpace c then spaceRun rest + 1 else 0
  | [] => 0

/-- `\s+` of the format's blank: candidate remainders after consuming
1..n leading whitespace characters, greedy (longest) first. -/
def reSpaces (cs : List Char) : List (List Char) :=
  let n := spaceRun cs
  (List.range n).map (fun i => cs.drop (n - i))

/-- All full-pattern matches of the format
`%Y-%m-%d %H%M` (or `%Y-%m-%d %H:%M` when `colon` is set) against the
input, with their unconsumed remainders, in regex backtracking
priority order. -/
def dtCandidates (colon : Bool) (cs : List Char) : List (DT × List Char) :=
  (reYear cs).flatMap fun (y, r1) =>
  (reLit '-' r1).flatMap fun r2 =>
  (reMonth r2).flatMap fun (mo, r3) =>
  (reLit '-' r3).flatMap fun r4 =>
  (reDay r4).flatMap fun (d, r5) =>
  (reSpaces r5).flatMap fun r6 =>
  (reHour r6).flatMap fun (h, r7) =>
  (if colon then reLit ':' r7 else [r7]).flatMap fun r8 =>
  (reMinute r8).map fun (mi, r9) => (⟨y, mo, d, h, mi⟩, r9)

/-- Day count of a month, with the Gregorian leap rule, as used by the
`datetime` constructor's day-range check. -/
def daysInMonth (y m : Nat) : Nat :=
  if m = 2 then (if (y % 4 = 0 && y % 100 ≠ 0) || y % 400 = 0 then 29 else 28)
  else if m = 4 || m = 6 || m = 9 || m = 11 then 30 else 31

/-- The `datetime(year, month, day, hour, minute)` constructor's range
checks (`MINYEAR = 1`, `MAXYEAR = 9999`). -/
def dtValid (d : DT) : Bool :=
  1 ≤ d.year && d.year ≤ 9999 && 1 ≤ d.month && d.month ≤ 12 &&
  1 ≤ d.day && d.day ≤ daysInMonth d.year d.month && d.hour ≤ 23 && d.minute ≤ 59

/-- `datetime.strptime(s, fmt)` for the two formats of the source:
the first regex match must consume the whole string, and the resulting
fields must form a valid datetime; otherwise `ValueError` (`none`). -/
def strptime (colon : Bool) (s : String) : Option DT :=
  match dtCandidates colon s.data with
  | [] => none
  | (dt, rest) :: _ => if rest.isEmpty && dtValid dt then some dt else none

/-- `datetime.strptime(s, '%Y-%m-%d %H%M')`. -/
def strptimeCompact (s : String) : Option DT := strptime false s

/-- `datetime.strptime(s, '%Y-%m-%d %H:%M')`. -/
def strptimeColon (s : String) : Option DT := strptime true s

/-- The `for fmt in (...)` loops of `query_flights`: try the compact
format first, then the colon format. -/
def parseEither (s : String) : Option DT :=
  (strptimeCompact s).orElse fun _ => strptimeColon s

/-! ## Model of Python `float(str)` -/

/-- Result of Python `float(str)`: NaN, signed infinity, or a finite
value represented exactly as `mant * 10 ^ exp10`. -/
inductive PyFloat where
  | nan
  | inf
  | ninf
  | fin (mant : Int) (exp10 : Int)
deriving DecidableEq

/-- Python `a < b` on floats: any comparison with NaN is false;
finite values are compared exactly. -/
def PyFloat.lt : PyFloat → PyFloat → Bool
  | .nan, _ => false
  | _, .nan => false
  | .ninf, .ninf => false
  | .ninf, _ => true
  | _, .ninf => false
  | .inf, _ => false
  | .fin _ _, .inf => true
  | .fin m1 e1, .fin m2 e2 =>
    if e2 ≤ e1 then decide (m1 * 10 ^ (e1 - e2).toNat < m2)
    else decide (m1 < m2 * 10 ^ (e2 - e1).toNat)

/-- Remove leading and trailing Python whitespace. -/
def trimPySpaces (cs : List Char) : List Char :=
  ((cs.dropWhile isPySpace).reverse.dropWhile isPySpace).reverse

/-- PEP 515 underscore rule for numeric literals accepted by `float`:
every underscore must sit directly between two digits. -/
def underscoresOk : List Char → Bool
  | '_' :: _ => false
  | _ :: '_' :: [] => false
  | a :: '_' :: b :: rest => a.isDigit && b.isDigit && underscoresOk (b :: rest)
  | _ :: rest => underscoresOk rest
  | [] => true

/-- Finite result of `float`: sign, integer digits, fraction digits,
decimal exponent. -/
def mkFin (neg : Bool) (ip fp : List Char) (e : Int) : PyFloat :=
  let m : Int := (digitsToNat (ip ++ fp) : Int)
  .fin (if neg then -m else m) (e - (fp.length : Int))

/-- Exponent part of a `float` literal: at least one digit, nothing
after it. -/
def finishExp (neg : Bool) (ip fp : List Char) (eneg : Bool) (t : List Char) : Option PyFloat :=
  let ed := t.takeWhile Char.isDigit
  let r := t.dropWhile Char.isDigit
  if ed.isEmpty || !r.isEmpty then none
  else some (mkFin neg ip fp (if eneg then -(digitsToNat ed : Int) else (digitsToNat ed : Int)))

/-- After the mantissa of a `float` literal: end of string, or an
exponent introduced by `e`/`E` with an optional sign. -/
def finishDecimal (neg : Bool) (ip fp : List Char) (rest : List Char) : Option PyFloat :=
  if ip.isEmpty && fp.isEmpty then none
  else
    match rest with
    | [] => some (mkFin neg ip fp 0)
    | e :: t =>
      if e = 'e' || e = 'E' then
        match t with
        | '+' :: t2 => finishExp neg ip fp false t2
        | '-' :: t2 => finishExp neg ip fp true t2
        | _ => finishExp neg ip fp false t
      else none

/-- Decimal form accepted by `float` (after sign removal and
underscore stripping): digits, an optional point with further digits,
an optional exponent; at least one mantissa digit. -/
def parseDecimal (neg : Bool) (cs : List Char) : Option PyFloat :=
  let ip := cs.takeWhile Char.isDigit
  let r1 := cs.dropWhile Char.isDigit
  match r1 with
  | '.' :: t => finishDecimal neg ip (t.takeWhile Char.isDigit) (t.dropWhile Char.isDigit)
  | _ => finishDecimal neg ip [] r1

/-- Body of a `float` literal after the optional sign:
case-insensitive `inf`/`infinity`/`nan`, or a decimal form obeying the
underscore rule. -/
def pyFloatBody (neg : Bool) (cs : List Char) : Option PyFloat :=
  let low := cs.map Char.toLower
  if low = "inf".data || low = "infinity".data then some (if neg then .ninf else .inf)
  else if low = "nan".data then some .nan
  else if underscoresOk cs then parseDecimal neg (cs.filter (fun c => c != '_'))
  else none

/-- Python `float(s)` on a string: `none` models `ValueError`. -/
def pyFloat (s : String) : Option PyFloat :=
  match trimPySpaces s.data with
  | '+' :: rest => pyFloatBody false rest
  | '-' :: rest => pyFloatBody true rest
  | cs => pyFloatBody false cs

/-! ## Python string predicates (ASCII repertoire) -/

/-- Python `str.isalpha`: non-empty and all characters alphabetic. -/
def pyStrIsAlpha (s : String) : Bool :=
  !s.data.isEmpty && s.data.all (fun c => c.isAlpha)

/-- Python `str.isupper`: at least one cased character and no cased
character is lowercase (cased = alphabetic in the ASCII repertoire). -/
def pyStrIsUpper (s : String) : Bool :=
  s.data.any (fun c => c.isAlpha) && s.data.all (fun c => !c.isAlpha || c.isUpper)

/-- Python `str.isalnum`: non-empty and all characters alphanumeric. -/
def pyStrIsAlnum (s : String) : Bool :=
  !s.data.isEmpty && s.data.all (fun c => c.isAlphanum)

/-! ## The data model and the `FlightValidator` class -/

/-- A six-field flight record, as built by `parse_csv` and consumed by
`FlightValidator.validate_flight_record` and the query code. -/
structure FlightRecord where
  flightid : String
  origin : String
  destination : String
  departuredatetime : String
  arrivaldatetime : String
  price : String
deriving DecidableEq

/-- Python's `", ".join(errors)`. -/
def joinReasons : List String → String
  | [] => ""
  | [e] => e
  | e :: rest => e ++ ", " ++ joinReasons rest

namespace FlightValidator

/-- The class-level allow-list `ORIGIN_CODES` (a Python set; only
membership is used). -/
def ORIGIN_CODES : List String :=
  ["LHR", "JFK", "FRA", "RIX", "OSL", "HEL", "CDG", "DXB", "AMS", "ARN", "DOH", "SYD", "LAX", "BRU"]

/-- `FlightValidator.validate_flightid`. -/
def validate_flightid (flight_id : String) : Bool × String :=
  if flight_id == "" || decide (flight_id.length > 8) then
    (false,
      if flight_id != "" && decide (flight_id.length > 8) then
        "flightid too long (more than 8 characters)"
      else "missing flightid field")
  else if !pyStrIsAlnum flight_id then (false, "invalid flightid format")
  else (true, "")

/-- `FlightValidator.validate_code`. -/
def validate_code (code : String) : Bool × String :=
  if code == "" || code.length != 3 || !pyStrIsUpper code || !pyStrIsAlpha code then (false, "")
  else (true, "")

/-- `FlightValidator.validate_datetime`: accepts both the compact and
the colon layout. -/
def validate_datetime (dt_str : String) : Bool × String :=
  if dt_str == "" then (false, "missing datetime")
  else if (strptimeCompact dt_str).isSome then (true, "")
  else if (strptimeColon dt_str).isSome then (true, "")
  else (false, "invalid datetime")

/-- `FlightValidator.validate_price`. -/
def validate_price (price_str : String) : Bool × String :=
  if price_str == "" then (false, "missing price field")
  else
    match pyFloat price_str with
    | none => (false, "invalid price format")
    | some price =>
      if PyFloat.lt price (.fin 0 0) then (false, "negative price value") else (true, "")

/-- The required-field loop at the top of `validate_flight_record`:
the first field (in the fixed order) whose value is falsy (empty). -/
def firstEmptyField (r : FlightRecord) : Option String :=
  if r.flightid == "" then some "flightid"
  else if r.origin == "" then some "origin"
  else if r.destination == "" then some "destination"
  else if r.departuredatetime == "" then some "departuredatetime"
  else if r.arrivaldatetime == "" then some "arrivaldatetime"
  else if r.price == "" then some "price"
  else none

/-- Errors appended by the flightid check of `validate_flight_record`. -/
def flightidErrors (s : String) : List String :=
  if (validate_flightid s).1 then [] else [(validate_flightid s).2]

/-- Errors appended by the origin check of `validate_flight_record`
(code shape, then allow-list membership). -/
def originErrors (origin : String) : List String :=
  if (validate_code origin).1 then
    if origin ∈ ORIGIN_CODES then [] else ["invalid origin code"]
  else ["invalid origin code"]

/-- Errors appended by the destination check of
`validate_flight_record` (code shape only). -/
def destinationErrors (destination : String) : List String :=
  if (validate_code destination).1 then [] else ["invalid destination code"]

/-- Errors appended by the departure-datetime check. -/
def departErrors (s : String) : List String :=
  if (validate_datetime s).1 then [] else ["invalid departure datetime"]

/-- Errors appended by the arrival-datetime check. -/
def arriveErrors (s : String) : List String :=
  if (validate_datetime s).1 then [] else ["invalid arrival datetime"]

/-- The cross-field block of `validate_flight_record` (source lines
89-93): when both datetime fields passed `validate_datetime`, each is
re-parsed with the compact format only; a string that was accepted in
the colon layout makes `strptime` raise `ValueError` (`none`).
Otherwise `"arrival before departure"` is appended when
`arrive_dt <= depart_dt`. -/
def crossErrors (r : FlightRecord) : Option (List String) :=
  if (validate_datetime r.departuredatetime).1 && (validate_datetime r.arrivaldatetime).1 then
    match strptimeCompact r.departuredatetime with
    | none => none
    | some depart_dt =>
      match strptimeCompact r.arrivaldatetime with
      | none => none
      | some arrive_dt =>
        some (if arrive_dt.key ≤ depart_dt.key then ["arrival before departure"] else [])
  else some []

/-- Errors appended by the price check of `validate_flight_record`. -/
def priceErrors (s : String) : List String :=
  if (validate_price s).1 then [] else [(validate_price s).2]

/-- The `errors` list of `validate_flight_record` at the return point:
a single missing-field reason short-circuits; otherwise the per-field
reasons accumulate in source order (flightid, origin, destination,
departure, arrival, cross-field, price).  `none` models the uncaught
`ValueError` of the cross-field block. -/
def record_errors (r : FlightRecord) : Option (List String) :=
  match firstEmptyField r with
  | some field => some ["missing " ++ field ++ " field"]
  | none =>
    match crossErrors r with
    | none => none
    | some cross =>
      some (flightidErrors r.flightid ++ originErrors r.origin ++
        destinationErrors r.destination ++ departErrors r.departuredatetime ++
        arriveErrors r.arrivaldatetime ++ cross ++ priceErrors r.price)

/-- `FlightValidator.validate_flight_record`: the verdict and the
joined reason string; `none` models an uncaught exception escaping the
function. -/
def validate_flight_record (record : FlightRecord) : Option (Bool × String) :=
  (record_errors record).map (fun errors => (errors.isEmpty, joinReasons errors))

end FlightValidator

/-! ## The `FlightParser` class: store population, snapshot, queries -/

/-- A JSON value, as far as the snapshot format needs: the exported
database is an array of objects with string values.  `json.dump`
followed by `json.load` round-trips this tree through text. -/
inductive JValue where
  | jstr : String → JValue
  | jarr : List JValue → JValue
  | jobj : List (String × JValue) → JValue

namespace FlightParser

/-- The per-record tail of the `parse_csv` loop (source lines 135-148),
from the point where the six stripped fields of a data row have been
assembled into a record: accepted records are appended to
`valid_flights` in input order, rejected ones are only logged.  CSV
lexing, blank/comment/header skipping and field stripping are I/O glue
upstream of this point.  An uncaught exception from
`validate_flight_record` (the `none` case) is only caught by the
file-level handler around the whole loop (line 149), so it aborts the
remaining rows, leaving the flights accumulated so far. -/
def parse_csv_records (rows : List FlightRecord) (valid_flights : List FlightRecord) :
    List FlightRecord :=
  match rows with
  | [] => valid_flights
  | record :: rest =>
    match FlightValidator.validate_flight_record record with
    | none => valid_flights
    | some (true, _) => parse_csv_records rest (valid_flights ++ [record])
    | some (false, _) => parse_csv_records rest valid_flights

/-- JSON form of one record, as `json.dump` writes it: an object with
the six string fields in insertion order. -/
def recordToJson (r : FlightRecord) : JValue :=
  .jobj [("flightid", .jstr r.flightid), ("origin", .jstr r.origin),
    ("destination", .jstr r.destination), ("departuredatetime", .jstr r.departuredatetime),
    ("arrivaldatetime", .jstr r.arrivaldatetime), ("price", .jstr r.price)]

/-- `FlightParser.export_valid_flights`: the snapshot written for the
store is the JSON array of its records. -/
def export_valid_flights (valid_flights : List FlightRecord) : JValue :=
  .jarr (valid_flights.map recordToJson)

/-- String value of a field of a JSON object. -/
def lookupField (fields : List (String × JValue)) (key : String) : Option String :=
  match fields.lookup key with
  | some (.jstr s) => some s
  | _ => none

/-- Reading one decoded JSON value as a six-field record, the shape the
query code accesses by key. -/
def jsonToRecord : JValue → Option FlightRecord
  | .jobj fields => do
    let flightid ← lookupField fields "flightid"
    let origin ← lookupField fields "origin"
    let destination ← lookupField fields "destination"
    let departuredatetime ← lookupField fields "departuredatetime"
    let arrivaldatetime ← lookupField fields "arrivaldatetime"
    let price ← lookupField fields "price"
    return ⟨flightid, origin, destination, departuredatetime, arrivaldatetime, price⟩
  | _ => none

/-- Reading a decoded JSON array elementwise as records. -/
def decodeRecords : List JValue → Option (List FlightRecord)
  | [] => some []
  | j :: rest =>
    match jsonToRecord j with
    | none => none
    | some r =>
      match decodeRecords rest with
      | none => none
      | some rs => some (r :: rs)

/-- `FlightParser.load_json_database`: the store is replaced wholesale
by the decoded snapshot (`self.valid_flights = json.load(f)`); no
record is re-validated.  Snapshots that are not an array of six-field
string objects leave the store outside the record model (`none`);
decode failure of the file itself exits the process and is outside
this model. -/
def load_json_database : JValue → Option (List FlightRecord)
  | .jarr xs => decodeRecords xs
  | _ => none

/-- The query is the decoded JSON constraint map: key/value pairs with
string values, looked up by key (a Python dict has unique keys). -/
def Query : Type := List (String × String)

/-- The exact-equality constraints of `query_flights` for `flightid`,
`origin` and `destination`: absent key, no constraint; present key,
the record's field must equal the query value. -/
def checkEq (q : Query) (key : String) (fval : String) : Bool :=
  match List.lookup key q with
  | some v => fval == v
  | none => true

/-- The `departuredatetime` constraint of `query_flights`: the query
value and then the record's field are parsed with both formats; any
parse failure means no match, otherwise the record's departure must
not be earlier than the query's (`if f_dt is None or f_dt < q_dt`). -/
def checkDep (q : Query) (flight : FlightRecord) : Bool :=
  match List.lookup "departuredatetime" q with
  | none => true
  | some qdt =>
    match parseEither qdt with
    | none => false
    | some q_dt =>
      match parseEither flight.departuredatetime with
      | none => false
      | some f_dt => !decide (f_dt.key < q_dt.key)

/-- The `arrivaldatetime` constraint of `query_flights`: symmetric to
departure with the opposite bound (`if f_dt is None or f_dt > q_dt`). -/
def checkArr (q : Query) (flight : FlightRecord) : Bool :=
  match List.lookup "arrivaldatetime" q with
  | none => true
  | some qdt =>
    match parseEither qdt with
    | none => false
    | some q_dt =>
      match parseEither flight.arrivaldatetime with
      | none => false
      | some f_dt => !decide (q_dt.key < f_dt.key)

/-- The `price` constraint of `query_flights`: `float` is applied to
the query value and then to the record's price (a `ValueError` from
either means no match); the record is excluded when its price compares
strictly greater than the query's. -/
def checkPrice (q : Query) (flight : FlightRecord) : Bool :=
  match List.lookup "price" q with
  | none => true
  | some qp =>
    match pyFloat qp with
    | none => false
    | some query_price =>
      match pyFloat flight.price with
      | none => false
      | some flight_price => !(PyFloat.lt query_price flight_price)

/-- The per-flight `match` flag of `query_flights`: every present
constraint must hold; keys other than the six field names are never
looked at. -/
def matchesQuery (q : Query) (flight : FlightRecord) : Bool :=
  checkEq q "flightid" flight.flightid && checkEq q "origin" flight.origin &&
  checkEq q "destination" flight.destination && checkDep q flight &&
  checkArr q flight && checkPrice q flight

/-- `FlightParser.query_flights`: the matching records of the store,
in store order. -/
def query_flights (valid_flights : List FlightRecord) (query : Query) : List FlightRecord :=
  valid_flights.filter (matchesQuery query)

end FlightParser


/-! ## Spec-side comparison for the price bound

The spec states the `price` constraint as an inclusive upper bound:
"record's price must be ≤ the query's numeric price". -/

/-- Modelled from the spec's words for the query price bound: the
`≤` comparison on parsed prices, with the usual float semantics in
which every comparison against NaN is false.  This is the spec-side
relation to compare against the code's `not (flight_price >
query_price)` test. -/
def PyFloat.ieeeLe : PyFloat → PyFloat → Bool
  | .nan, _ => false
  | _, .nan => false
  | .ninf, _ => true
  | _, .ninf => false
  | _, .inf => true
  | .inf, _ => false
  | .fin m1 e1, .fin m2 e2 =>
    if e2 ≤ e1 then decide (m1 * 10 ^ (e1 - e2).toNat ≤ m2)
    else decide (m1 ≤ m2 * 10 ^ (e2 - e1).toNat)

/-! ## Named records used in the concrete theorems -/

/-- The spec's end-to-end example row. -/
def exampleRecord : FlightRecord :=
  ⟨"AB123", "LHR", "JFK", "2025-11-14 1030", "2025-11-14 1530", "250.00"⟩

/-- A record whose departure is in the colon layout accepted by
`validate_datetime`. -/
def colonDepartRecord : FlightRecord :=
  ⟨"AB123", "LHR", "JFK", "2025-11-14 10:30", "2025-11-14 1530", "250.00"⟩

/-- A record whose arrival, in the colon layout, is an hour before its
departure. -/
def colonArriveRecord : FlightRecord :=
  ⟨"AB123", "LHR", "JFK", "2025-11-14 1030", "2025-11-14 09:30", "250.00"⟩

/-- A record with equal departure and arrival timestamps. -/
def equalTimesRecord : FlightRecord :=
  ⟨"AB123", "LHR", "JFK", "2025-11-14 1030", "2025-11-14 1030", "250.00"⟩

/-- A record whose flightid is whitespace-only (truthy in Python). -/
def blankIdRecord : FlightRecord :=
  ⟨" ", "LHR", "JFK", "2025-11-14 1030", "2025-11-14 1530", "250.00"⟩

/-- A record with every field empty. -/
def allEmptyRecord : FlightRecord := ⟨"", "", "", "", "", ""⟩

/-- A record that is accepted although its price is the string `nan`. -/
def nanPriceRecord : FlightRecord :=
  ⟨"NN123", "LHR", "JFK", "2025-11-14 1030", "2025-11-14 1530", "nan"⟩

/-! ## The store-membership invariant (spec §3) -/

/-- The invariant the spec asserts for records held in the store: all
six fields non-empty, each field individually valid under the
per-field checks (origin also on the allow-list), and the arrival
timestamp strictly after the departure timestamp in the parsed
representation the code compares (the compact layout). -/
def RecordValid (r : FlightRecord) : Prop :=
  r.flightid ≠ "" ∧ r.origin ≠ "" ∧ r.destination ≠ "" ∧ r.departuredatetime ≠ "" ∧
  r.arrivaldatetime ≠ "" ∧ r.price ≠ "" ∧
  (FlightValidator.validate_flightid r.flightid).1 = true ∧
  (FlightValidator.validate_code r.origin).1 = true ∧
  r.origin ∈ FlightValidator.ORIGIN_CODES ∧
  (FlightValidator.validate_code r.destination).1 = true ∧
  (FlightValidator.validate_datetime r.departuredatetime).1 = true ∧
  (FlightValidator.validate_datetime r.arrivaldatetime).1 = true ∧
  (∃ d a, strptimeCompact r.departuredatetime = some d ∧
    strptimeCompact r.arrivaldatetime = some a ∧ d.key < a.key) ∧
  (FlightValidator.validate_price r.price).1 = true

/-! ## C1 -/

/-- C1: the claim states that a record whose two datetime fields both
pass `validate_datetime` (in either accepted layout) always gets a
verdict from `validate_flight_record`, and that no exception crosses
the record-validation boundary.  The code contradicts this: a colon
layout datetime passes `validate_datetime` but the cross-field block
re-parses it with the compact format only, raising `ValueError`
(modelled by `none`); the exception is caught only by the file-level
handler, so the remaining rows of the batch (here the spec's own valid
example row) are never processed. -/
theorem C1_exception_escapes_boundary :
    FlightValidator.validate_datetime colonDepartRecord.departuredatetime = (true, "") ∧
    FlightValidator.validate_datetime colonDepartRecord.arrivaldatetime = (true, "") ∧
    FlightValidator.validate_flight_record colonDepartRecord = none ∧
    FlightParser.parse_csv_records [colonDepartRecord, exampleRecord] [] = [] := by
  refine ⟨by decide, by decide, by decide, by decide⟩

/-! ## C10 -/

/-- C10: `validate_price` accepts every string `float` parses whose
value is not less than zero, including `"nan"` and `"inf"` (NaN
compares false against 0), so a record with price `"nan"` is accepted
and admitted to the store. -/
theorem C10_nan_inf_accepted :
    FlightValidator.validate_price "nan" = (true, "") ∧
    FlightValidator.validate_price "inf" = (true, "") ∧
    pyFloat "nan" = some PyFloat.nan ∧
    PyFloat.lt PyFloat.nan (PyFloat.fin 0 0) = false ∧
    FlightValidator.validate_flight_record nanPriceRecord = some (true, "") ∧
    FlightParser.parse_csv_records [nanPriceRecord] [] = [nanPriceRecord] := by
  refine ⟨by decide, by decide, by decide, by decide, by decide, by decide⟩

/-! ## C2: counterexample (snapshot load path) -/

/-- C2 counterexample: `load_json_database` replaces the store with
the decoded snapshot without validating anything, so a snapshot
holding a record with every field empty puts a record violating the
invariant (here: empty `flightid`) into the store. -/
theorem C2_counterexample :
    FlightParser.load_json_database (FlightParser.export_valid_flights [allEmptyRecord]) =
      some [allEmptyRecord] ∧
    allEmptyRecord.flightid = "" ∧
    FlightValidator.validate_flight_record allEmptyRecord =
      some (false, "missing flightid field") := by
  refine ⟨rfl, rfl, by decide⟩

/-! ## C3: counterexample -/

/-- C3 counterexample: both datetime fields of `colonArriveRecord` are
valid per `validate_datetime`, and the parsed arrival (09:30) is
earlier than the parsed departure (10:30), yet `validate_flight_record`
does not reject with an "arrival before departure" reason: it raises
(the colon-layout arrival fails the compact-only re-parse). -/
theorem C3_counterexample :
    (FlightValidator.validate_datetime colonArriveRecord.departuredatetime).1 = true ∧
    (FlightValidator.validate_datetime colonArriveRecord.arrivaldatetime).1 = true ∧
    parseEither colonArriveRecord.departuredatetime = some ⟨2025, 11, 14, 10, 30⟩ ∧
    parseEither colonArriveRecord.arrivaldatetime = some ⟨2025, 11, 14, 9, 30⟩ ∧
    FlightValidator.validate_flight_record colonArriveRecord = none := by
  refine ⟨by decide, by decide, by decide, by decide, by decide⟩

/-! ## C4: counterexample -/

/-- C4 counterexample: a whitespace-only field is truthy in Python, so
it is not caught by the missing-field loop; the record is rejected,
but with `"invalid flightid format"`, not a "missing" reason. -/
theorem C4_counterexample :
    blankIdRecord.flightid = " " ∧
    " ".data.all isPySpace = true ∧
    FlightValidator.validate_flight_record blankIdRecord =
      some (false, "invalid flightid format") := by
  refine ⟨rfl, by decide, by decide⟩

/-! ## C6: counterexample -/

/-- C6 counterexample: a stored record whose price is `"nan"` is
returned for the query price bound `"100"` (the code only excludes on
`flight_price > query_price`, and NaN comparisons are false), although
its parsed price is not `≤` the query's parsed price. -/
theorem C6_counterexample :
    FlightParser.query_flights [nanPriceRecord] [("price", "100")] = [nanPriceRecord] ∧
    pyFloat nanPriceRecord.price = some PyFloat.nan ∧
    pyFloat "100" = some (PyFloat.fin 100 0) ∧
    PyFloat.ieeeLe PyFloat.nan (PyFloat.fin 100 0) = false := by
  refine ⟨by decide, by decide, by decide, by decide⟩

/-! ## C8: counterexample -/

/-- C8 counterexample: the empty string has length at most 8 and
contains only letters and digits (vacuously), yet the flightid check
fails on it (Python's `isalnum` is false on the empty string and the
missing-field branch fires first). -/
theorem C8_counterexample :
    "".length ≤ 8 ∧ "".data.all (fun c => c.isAlphanum) = true ∧
    FlightValidator.validate_flightid "" = (false, "missing flightid field") := by
  refine ⟨by decide, by decide, by decide⟩

/-! ## C7 -/

/-- C7: `validate_price` partitions price strings exactly as claimed:
empty is "missing price field"; non-empty and unparseable is "invalid
price format"; parseable and comparing below zero is "negative price
value"; otherwise (parseable, not below zero — which includes NaN)
the check passes. -/
theorem C7_price_partition (s : String) :
    (s = "" → FlightValidator.validate_price s = (false, "missing price field")) ∧
    (s ≠ "" → pyFloat s = none →
      FlightValidator.validate_price s = (false, "invalid price format")) ∧
    (∀ v, pyFloat s = some v → PyFloat.lt v (PyFloat.fin 0 0) = true →
      FlightValidator.validate_price s = (false, "negative price value")) ∧
    (∀ v, pyFloat s = some v → PyFloat.lt v (PyFloat.fin 0 0) = false →
      FlightValidator.validate_price s = (true, "")) := by
  refine ⟨?_, ?_, ?_, ?_⟩
  · intro h; subst h; rfl
  · intro hne hnone
    unfold FlightValidator.validate_price
    rw [beq_eq_false_iff_ne.mpr hne, hnone]
    rfl
  · intro v hv hneg
    have hne : s ≠ "" := by
      intro h; subst h
      exact Option.noConfusion ((rfl : pyFloat "" = none) ▸ hv)
    unfold FlightValidator.validate_price
    rw [beq_eq_false_iff_ne.mpr hne, hv]
    simp [hneg]
  · intro v hv hpos
    have hne : s ≠ "" := by
      intro h; subst h
      exact Option.noConfusion ((rfl : pyFloat "" = none) ▸ hv)
    unfold FlightValidator.validate_price
    rw [beq_eq_false_iff_ne.mpr hne, hv]
    simp [hpos]

/-- C7 witness: the four cases at concrete inputs. -/
theorem C7_witness :
    FlightValidator.validate_price "-5" = (false, "negative price value") ∧
    FlightValidator.validate_price "" = (false, "missing price field") ∧
    FlightValidator.validate_price "abc" = (false, "invalid price format") ∧
    FlightValidator.validate_price "250.00" = (true, "") := by
  exact ⟨(C7_price_partition "-5").2.2.1 (PyFloat.fin (-5) 0) (by decide) (by decide),
    (C7_price_partition "").1 rfl,
    (C7_price_partition "abc").2.1 (by decide) (by decide),
    (C7_price_partition "250.00").2.2.2 (PyFloat.fin 25000 (-2)) (by decide) (by decide)⟩

/-! ## C8 -/

/-- C8 amended: every NON-EMPTY flightid of length at most 8 whose
characters are all letters or digits passes `validate_flightid`
(Python's `isalnum` is false on the empty string, so the empty string
fails with a missing-field reason — the one change the counterexample
forces); every string of length 9 or more, or containing a character
that is not a letter or digit, fails. -/
theorem C8_amended (s : String) :
    (s ≠ "" → s.length ≤ 8 → s.data.all (fun c => c.isAlphanum) = true →
      FlightValidator.validate_flightid s = (true, "")) ∧
    (9 ≤ s.length ∨ s.data.any (fun c => !c.isAlphanum) = true →
      (FlightValidator.validate_flightid s).1 = false) := by
  constructor
  · intro hne hlen hall
    have h1 : (s == "") = false := beq_eq_false_iff_ne.mpr hne
    have h2 : decide (s.length > 8) = false := by
      simp [decide_eq_false_iff_not]; omega
    have h3 : pyStrIsAlnum s = true := by
      have hdata : s.data ≠ [] := fun hd => hne (String.ext hd)
      unfold pyStrIsAlnum
      simp [List.isEmpty_iff, hdata, hall]
    unfold FlightValidator.validate_flightid
    rw [h1, h2, h3]
    rfl
  · intro h
    by_cases hemp : s = ""
    · subst hemp
      rcases h with h9 | hbad
      · simp at h9
      · simp at hbad
    · have h1 : (s == "") = false := beq_eq_false_iff_ne.mpr hemp
      unfold FlightValidator.validate_flightid
      by_cases h8 : s.length > 8
      · have h2 : decide (s.length > 8) = true := by simpa using h8
        rw [h1, h2]
        rfl
      · have h2 : decide (s.length > 8) = false := by
          simp [decide_eq_false_iff_not]; omega
        rw [h1, h2]
        rcases h with h9 | hbad
        · exact absurd h9 (by omega)
        · have h3 : pyStrIsAlnum s = false := by
            obtain ⟨c, hc, hcb⟩ := List.any_eq_true.mp hbad
            have hall : s.data.all (fun c => c.isAlphanum) = false := by
              rw [List.all_eq_false]
              exact ⟨c, hc, by simpa using hcb⟩
            unfold pyStrIsAlnum
            simp [hall]
          rw [h3]
          rfl

/-- C8 witness: both directions at concrete inputs. -/
theorem C8_witness :
    FlightValidator.validate_flightid "AB123" = (true, "") ∧
    (FlightValidator.validate_flightid "ABCDEFGHI").1 = false := by
  exact ⟨(C8_amended "AB123").1 (by decide) (by decide) (by decide),
    (C8_amended "ABCDEFGHI").2 (Or.inl (by decide))⟩

/-! ## C5 -/

/-- C5: every 3-letter uppercase string outside the allow-list makes
the origin check of `validate_flight_record` produce "invalid origin
code", while the destination check accepts every 3-letter uppercase
string with no allow-list restriction (uppercase ASCII letters are in
particular alphabetic). -/
theorem C5_origin_allowlist_destination_free (s : String) (h3 : s.length = 3)
    (hup : ∀ c ∈ s.data, c.isUpper = true) :
    (s ∉ FlightValidator.ORIGIN_CODES →
      FlightValidator.originErrors s = ["invalid origin code"]) ∧
    FlightValidator.destinationErrors s = [] := by
  have hne : s ≠ "" := by
    intro h; subst h; simp at h3
  have hdata : s.data ≠ [] := by
    intro hd
    have h0 : s.length = 0 := by simp [String.length, hd]
    omega
  have hcode : (FlightValidator.validate_code s).1 = true := by
    have h1 : (s == "") = false := beq_eq_false_iff_ne.mpr hne
    have h2 : (s.length != 3) = false := by simp [h3]
    have hupper : pyStrIsUpper s = true := by
      unfold pyStrIsUpper
      rw [Bool.and_eq_true]
      constructor
      · rw [List.any_eq_true]
        obtain ⟨c, hc⟩ := List.exists_mem_of_ne_nil s.data hdata
        exact ⟨c, hc, by simp [Char.isAlpha, hup c hc]⟩
      · rw [List.all_eq_true]
        intro c hc
        simp [hup c hc]
    have halpha : pyStrIsAlpha s = true := by
      unfold pyStrIsAlpha
      rw [Bool.and_eq_true]
      refine ⟨by simp [List.isEmpty_iff, hdata], ?_⟩
      rw [List.all_eq_true]
      intro c hc
      simp [Char.isAlpha, hup c hc]
    unfold FlightValidator.validate_code
    rw [h1, h2, hupper, halpha]
    rfl
  constructor
  · intro hnot
    unfold FlightValidator.originErrors
    rw [hcode]
    simp [hnot]
  · unfold FlightValidator.destinationErrors
    rw [hcode]
    rfl

/-- C5 witness: a 3-letter uppercase code outside the allow-list. -/
theorem C5_witness :
    FlightValidator.originErrors "ZZZ" = ["invalid origin code"] ∧
    FlightValidator.destinationErrors "ZZZ" = [] := by
  have h := C5_origin_allowlist_destination_free "ZZZ" (by decide) (by decide)
  exact ⟨h.1 (by decide), h.2⟩

/-! ## C4 -/

/-- C4 amended: for every record with at least one EMPTY field (the
Python falsiness test does not catch whitespace-only values — the one
change the counterexample forces), `validate_flight_record` rejects
with exactly the single reason "missing <field> field" for the first
empty field in field order, and runs no further checks. -/
theorem C4_amended (r : FlightRecord)
    (h : r.flightid = "" ∨ r.origin = "" ∨ r.destination = "" ∨ r.departuredatetime = "" ∨
      r.arrivaldatetime = "" ∨ r.price = "") :
    ∃ f, FlightValidator.firstEmptyField r = some f ∧
      FlightValidator.validate_flight_record r = some (false, "missing " ++ f ++ " field") := by
  have hne : ∃ f, FlightValidator.firstEmptyField r = some f := by
    by_cases h1 : r.flightid = ""
    · exact ⟨"flightid", by simp [FlightValidator.firstEmptyField, h1]⟩
    by_cases h2 : r.origin = ""
    · exact ⟨"origin", by simp [FlightValidator.firstEmptyField, h1, h2]⟩
    by_cases h3 : r.destination = ""
    · exact ⟨"destination", by simp [FlightValidator.firstEmptyField, h1, h2, h3]⟩
    by_cases h4 : r.departuredatetime = ""
    · exact ⟨"departuredatetime", by simp [FlightValidator.firstEmptyField, h1, h2, h3, h4]⟩
    by_cases h5 : r.arrivaldatetime = ""
    · exact ⟨"arrivaldatetime", by simp [FlightValidator.firstEmptyField, h1, h2, h3, h4, h5]⟩
    by_cases h6 : r.price = ""
    · exact ⟨"price", by simp [FlightValidator.firstEmptyField, h1, h2, h3, h4, h5, h6]⟩
    · rcases h with h' | h' | h' | h' | h' | h' <;> contradiction
  obtain ⟨f, hf⟩ := hne
  refine ⟨f, hf, ?_⟩
  unfold FlightValidator.validate_flight_record FlightValidator.record_errors
  rw [hf]
  rfl

/-- C4 witness: a record whose flightid is empty. -/
theorem C4_witness :
    FlightValidator.validate_flight_record ⟨"", "LHR", "JFK", "2025-11-14 1030",
      "2025-11-14 1530", "250.00"⟩ = some (false, "missing flightid field") := by
  obtain ⟨f, hf, hv⟩ := C4_amended ⟨"", "LHR", "JFK", "2025-11-14 1030",
    "2025-11-14 1530", "250.00"⟩ (Or.inl rfl)
  have hfe : f = "flightid" := by
    have h2 : FlightValidator.firstEmptyField ⟨"", "LHR", "JFK", "2025-11-14 1030",
      "2025-11-14 1530", "250.00"⟩ = some "flightid" := rfl
    rw [h2] at hf
    exact (Option.some.inj hf).symm
  rw [hfe] at hv
  exact hv

/-! ## C2 -/

/-- A per-field error block of shape `if b then [] else [m]` is empty
only when its check passed. -/
theorem cond_block_eq_nil {b : Bool} {m : String}
    (h : (if b = true then ([] : List String) else [m]) = []) : b = true := by
  cases b with
  | true => rfl
  | false => simp at h

/-- An empty origin block means the code-shape check passed and the
code is on the allow-list. -/
theorem originErrors_eq_nil {s : String} (h : FlightValidator.originErrors s = []) :
    (FlightValidator.validate_code s).1 = true ∧ s ∈ FlightValidator.ORIGIN_CODES := by
  unfold FlightValidator.originErrors at h
  by_cases h1 : (FlightValidator.validate_code s).1 = true
  · refine ⟨h1, ?_⟩
    rw [h1] at h
    by_cases h2 : s ∈ FlightValidator.ORIGIN_CODES
    · exact h2
    · simp [h2] at h
  · simp [h1] at h

/-- A record with no empty field has all six fields non-empty. -/
theorem firstEmptyField_none_parts {r : FlightRecord}
    (h : FlightValidator.firstEmptyField r = none) :
    r.flightid ≠ "" ∧ r.origin ≠ "" ∧ r.destination ≠ "" ∧ r.departuredatetime ≠ "" ∧
    r.arrivaldatetime ≠ "" ∧ r.price ≠ "" := by
  by_cases h1 : r.flightid = ""
  · simp [FlightValidator.firstEmptyField, h1] at h
  by_cases h2 : r.origin = ""
  · simp [FlightValidator.firstEmptyField, h1, h2] at h
  by_cases h3 : r.destination = ""
  · simp [FlightValidator.firstEmptyField, h1, h2, h3] at h
  by_cases h4 : r.departuredatetime = ""
  · simp [FlightValidator.firstEmptyField, h1, h2, h3, h4] at h
  by_cases h5 : r.arrivaldatetime = ""
  · simp [FlightValidator.firstEmptyField, h1, h2, h3, h4, h5] at h
  by_cases h6 : r.price = ""
  · simp [FlightValidator.firstEmptyField, h1, h2, h3, h4, h5, h6] at h
  exact ⟨h1, h2, h3, h4, h5, h6⟩

/-- A cross-field block that returned the empty reason list (given
both datetime checks passed) certifies that both fields parse in the
compact layout with the departure strictly before the arrival. -/
theorem crossErrors_accepted {r : FlightRecord}
    (hd : (FlightValidator.validate_datetime r.departuredatetime).1 = true)
    (ha : (FlightValidator.validate_datetime r.arrivaldatetime).1 = true)
    (hc : FlightValidator.crossErrors r = some []) :
    ∃ d a, strptimeCompact r.departuredatetime = some d ∧
      strptimeCompact r.arrivaldatetime = some a ∧ d.key < a.key := by
  unfold FlightValidator.crossErrors at hc
  rw [hd, ha] at hc
  simp only [Bool.and_self, if_true] at hc
  cases hpd : strptimeCompact r.departuredatetime with
  | none => rw [hpd] at hc; simp at hc
  | some d =>
    rw [hpd] at hc
    cases hpa : strptimeCompact r.arrivaldatetime with
    | none => rw [hpa] at hc; simp at hc
    | some a =>
      rw [hpa] at hc
      refine ⟨d, a, rfl, rfl, ?_⟩
      by_cases hle : a.key ≤ d.key
      · simp [hle] at hc
      · omega

/-- An accepted verdict of `validate_flight_record` certifies the
store-membership invariant for the record. -/
theorem accepted_record_valid {r : FlightRecord} {s : String}
    (h : FlightValidator.validate_flight_record r = some (true, s)) : RecordValid r := by
  unfold FlightValidator.validate_flight_record at h
  cases he : FlightValidator.record_errors r with
  | none => rw [he] at h; exact Option.noConfusion h
  | some es =>
    rw [he] at h
    simp only [Option.map_some', Option.some.injEq, Prod.mk.injEq] at h
    have hnil : es = [] := List.isEmpty_iff.mp h.1
    subst hnil
    unfold FlightValidator.record_errors at he
    cases hf : FlightValidator.firstEmptyField r with
    | some f => rw [hf] at he; simp at he
    | none =>
      rw [hf] at he
      cases hc : FlightValidator.crossErrors r with
      | none => rw [hc] at he; simp at he
      | some cross =>
        rw [hc] at he
        simp only [Option.some.injEq, List.append_eq_nil] at he
        obtain ⟨⟨⟨⟨⟨⟨e1, e2⟩, e3⟩, e4⟩, e5⟩, e6⟩, e7⟩ := he
        obtain ⟨n1, n2, n3, n4, n5, n6⟩ := firstEmptyField_none_parts hf
        have v1 : (FlightValidator.validate_flightid r.flightid).1 = true := by
          have := e1
          unfold FlightValidator.flightidErrors at this
          exact cond_block_eq_nil this
        obtain ⟨v2, v3⟩ := originErrors_eq_nil e2
        have v4 : (FlightValidator.validate_code r.destination).1 = true := by
          have := e3
          unfold FlightValidator.destinationErrors at this
          exact cond_block_eq_nil this
        have v5 : (FlightValidator.validate_datetime r.departuredatetime).1 = true := by
          have := e4
          unfold FlightValidator.departErrors at this
          exact cond_block_eq_nil this
        have v6 : (FlightValidator.validate_datetime r.arrivaldatetime).1 = true := by
          have := e5
          unfold FlightValidator.arriveErrors at this
          exact cond_block_eq_nil this
        have v7 : (FlightValidator.validate_price r.price).1 = true := by
          have := e7
          unfold FlightValidator.priceErrors at this
          exact cond_block_eq_nil this
        have v8 := crossErrors_accepted v5 v6 (e6 ▸ hc)
        exact ⟨n1, n2, n3, n4, n5, n6, v1, v2, v3, v4, v5, v6, v8, v7⟩

/-- A record in the store built by the `parse_csv` loop was either
there before or was accepted by `validate_flight_record`. -/
theorem parse_csv_records_mem (rows : List FlightRecord) (acc : List FlightRecord)
    (r : FlightRecord) (h : r ∈ FlightParser.parse_csv_records rows acc) :
    r ∈ acc ∨ ∃ s, FlightValidator.validate_flight_record r = some (true, s) := by
  induction rows generalizing acc with
  | nil => exact Or.inl h
  | cons record rest ih =>
    unfold FlightParser.parse_csv_records at h
    cases hv : FlightValidator.validate_flight_record record with
    | none => rw [hv] at h; exact Or.inl h
    | some p =>
      rw [hv] at h
      obtain ⟨b, s⟩ := p
      cases b with
      | true =>
        rcases ih (acc ++ [record]) h with hmem | hval
        · rcases List.mem_append.mp hmem with h' | h'
          · exact Or.inl h'
          · have hr : r = record := by simpa using h'
            subst hr
            exact Or.inr ⟨s, hv⟩
        · exact Or.inr hval
      | false => exact ih acc h

/-- C2 amended: the store-membership invariant (all six fields
non-empty, each individually valid, origin on the allow-list, arrival
strictly after departure) holds for every record admitted along the
CSV bulk-load path.  It does NOT hold for the JSON snapshot path
(`load_json_database` replaces the store without validation — see the
counterexample), which is the change the counterexample forces. -/
theorem C2_amended (rows : List FlightRecord) (r : FlightRecord)
    (h : r ∈ FlightParser.parse_csv_records rows []) : RecordValid r := by
  rcases parse_csv_records_mem rows [] r h with hmem | ⟨s, hv⟩
  · simp at hmem
  · exact accepted_record_valid hv

/-- C2 witness: the spec's example record, loaded through the CSV
path, satisfies the invariant. -/
theorem C2_witness : RecordValid exampleRecord := by
  exact C2_amended [exampleRecord] exampleRecord (by decide)

/-! ## C3 -/

/-- The reason string of `validate_flightid` is one of its three
messages or empty. -/
theorem validate_flightid_snd (s : String) :
    (FlightValidator.validate_flightid s).2 = "flightid too long (more than 8 characters)" ∨
    (FlightValidator.validate_flightid s).2 = "missing flightid field" ∨
    (FlightValidator.validate_flightid s).2 = "invalid flightid format" ∨
    (FlightValidator.validate_flightid s).2 = "" := by
  unfold FlightValidator.validate_flightid
  split
  · split
    · exact Or.inl rfl
    · exact Or.inr (Or.inl rfl)
  · split
    · exact Or.inr (Or.inr (Or.inl rfl))
    · exact Or.inr (Or.inr (Or.inr rfl))

/-- The reason string of `validate_price` is one of its three messages
or empty. -/
theorem validate_price_snd (s : String) :
    (FlightValidator.validate_price s).2 = "missing price field" ∨
    (FlightValidator.validate_price s).2 = "invalid price format" ∨
    (FlightValidator.validate_price s).2 = "negative price value" ∨
    (FlightValidator.validate_price s).2 = "" := by
  unfold FlightValidator.validate_price
  split
  · exact Or.inl rfl
  · split
    · exact Or.inr (Or.inl rfl)
    · split
      · exact Or.inr (Or.inr (Or.inl rfl))
      · exact Or.inr (Or.inr (Or.inr rfl))

/-- The flightid block never produces the cross-field reason. -/
theorem arrival_not_mem_flightidErrors (s : String) :
    "arrival before departure" ∉ FlightValidator.flightidErrors s := by
  unfold FlightValidator.flightidErrors
  split
  · simp
  · rcases validate_flightid_snd s with h | h | h | h <;> rw [h] <;> decide

/-- The origin block never produces the cross-field reason. -/
theorem arrival_not_mem_originErrors (s : String) :
    "arrival before departure" ∉ FlightValidator.originErrors s := by
  unfold FlightValidator.originErrors
  split
  · split
    · simp
    · decide
  · decide

/-- The destination block never produces the cross-field reason. -/
theorem arrival_not_mem_destinationErrors (s : String) :
    "arrival before departure" ∉ FlightValidator.destinationErrors s := by
  unfold FlightValidator.destinationErrors
  split
  · simp
  · decide

/-- The departure block never produces the cross-field reason. -/
theorem arrival_not_mem_departErrors (s : String) :
    "arrival before departure" ∉ FlightValidator.departErrors s := by
  unfold FlightValidator.departErrors
  split
  · simp
  · decide

/-- The arrival block never produces the cross-field reason. -/
theorem arrival_not_mem_arriveErrors (s : String) :
    "arrival before departure" ∉ FlightValidator.arriveErrors s := by
  unfold FlightValidator.arriveErrors
  split
  · simp
  · decide

/-- The price block never produces the cross-field reason. -/
theorem arrival_not_mem_priceErrors (s : String) :
    "arrival before departure" ∉ FlightValidator.priceErrors s := by
  unfold FlightValidator.priceErrors
  split
  · simp
  · rcases validate_price_snd s with h | h | h | h <;> rw [h] <;> decide

/-- C3 amended: for every record that passes the missing-field gate
and whose two datetime fields both parse in the COMPACT layout (the
restriction the counterexample forces: a colon-layout field that
passed `validate_datetime` instead raises on the compact-only
re-parse), the reason list carries "arrival before departure" exactly
when the parsed arrival is equal to or earlier than the parsed
departure, and in that case the verdict is a rejection. -/
theorem C3_amended (r : FlightRecord) (d a : DT)
    (hne : FlightValidator.firstEmptyField r = none)
    (hd : strptimeCompact r.departuredatetime = some d)
    (ha : strptimeCompact r.arrivaldatetime = some a) :
    ∃ es, FlightValidator.record_errors r = some es ∧
      (("arrival before departure" ∈ es) ↔ a.key ≤ d.key) ∧
      (a.key ≤ d.key → (FlightValidator.validate_flight_record r).map Prod.fst = some false) := by
  have hdep : (FlightValidator.validate_datetime r.departuredatetime).1 = true := by
    have hsne : (r.departuredatetime == "") = false := by
      apply beq_eq_false_iff_ne.mpr
      intro h0
      rw [h0] at hd
      exact Option.noConfusion ((rfl : strptimeCompact "" = none) ▸ hd)
    unfold FlightValidator.validate_datetime
    rw [hsne, hd]
    rfl
  have harr : (FlightValidator.validate_datetime r.arrivaldatetime).1 = true := by
    have hsne : (r.arrivaldatetime == "") = false := by
      apply beq_eq_false_iff_ne.mpr
      intro h0
      rw [h0] at ha
      exact Option.noConfusion ((rfl : strptimeCompact "" = none) ▸ ha)
    unfold FlightValidator.validate_datetime
    rw [hsne, ha]
    rfl
  have hcross : FlightValidator.crossErrors r =
      some (if a.key ≤ d.key then ["arrival before departure"] else []) := by
    unfold FlightValidator.crossErrors
    rw [hdep, harr]
    simp only [Bool.and_self, if_true]
    rw [hd, ha]
  have hre : FlightValidator.record_errors r =
      some (FlightValidator.flightidErrors r.flightid ++ FlightValidator.originErrors r.origin ++
        FlightValidator.destinationErrors r.destination ++
        FlightValidator.departErrors r.departuredatetime ++
        FlightValidator.arriveErrors r.arrivaldatetime ++
        (if a.key ≤ d.key then ["arrival before departure"] else []) ++
        FlightValidator.priceErrors r.price) := by
    unfold FlightValidator.record_errors
    rw [hne, hcross]
  refine ⟨_, hre, ?_, ?_⟩
  · constructor
    · intro hmem
      by_contra hnle
      rw [if_neg hnle] at hmem
      simp only [List.mem_append] at hmem
      rcases hmem with ((((((m | m) | m) | m) | m) | m) | m)
      · exact arrival_not_mem_flightidErrors r.flightid m
      · exact arrival_not_mem_originErrors r.origin m
      · exact arrival_not_mem_destinationErrors r.destination m
      · exact arrival_not_mem_departErrors r.departuredatetime m
      · exact arrival_not_mem_arriveErrors r.arrivaldatetime m
      · exact absurd m (List.not_mem_nil _)
      · exact arrival_not_mem_priceErrors r.price m
    · intro hle
      rw [if_pos hle]
      simp [List.mem_append]
  · intro hle
    have hmem : "arrival before departure" ∈
        (FlightValidator.flightidErrors r.flightid ++ FlightValidator.originErrors r.origin ++
        FlightValidator.destinationErrors r.destination ++
        FlightValidator.departErrors r.departuredatetime ++
        FlightValidator.arriveErrors r.arrivaldatetime ++
        (if a.key ≤ d.key then ["arrival before departure"] else []) ++
        FlightValidator.priceErrors r.price) := by
      rw [if_pos hle]
      simp [List.mem_append]
    have hfalse : (FlightValidator.flightidErrors r.flightid ++
        FlightValidator.originErrors r.origin ++
        FlightValidator.destinationErrors r.destination ++
        FlightValidator.departErrors r.departuredatetime ++
        FlightValidator.arriveErrors r.arrivaldatetime ++
        (if a.key ≤ d.key then ["arrival before departure"] else []) ++
        FlightValidator.priceErrors r.price).isEmpty = false := by
      apply Bool.eq_false_iff.mpr
      intro hh
      exact List.ne_nil_of_mem hmem (List.isEmpty_iff.mp hh)
    unfold FlightValidator.validate_flight_record
    rw [hre]
    simp only [Option.map_some']
    rw [hfalse]

/-- C3 witness: equal timestamps in the compact layout are rejected. -/
theorem C3_witness :
    (FlightValidator.validate_flight_record equalTimesRecord).map Prod.fst = some false := by
  obtain ⟨es, hre, hiff, hrej⟩ := C3_amended equalTimesRecord ⟨2025, 11, 14, 10, 30⟩
    ⟨2025, 11, 14, 10, 30⟩ (by decide) (by decide) (by decide)
  exact hrej (by decide)

/-! ## C6 -/

/-- The equality constraints of `query_flights`, characterised. -/
theorem checkEq_iff (q : FlightParser.Query) (k v : String) :
    FlightParser.checkEq q k v = true ↔ ∀ s, List.lookup k q = some s → v = s := by
  cases h : List.lookup k q with
  | none => simp [FlightParser.checkEq, h]
  | some s0 => simp [FlightParser.checkEq, h]

/-- The departure lower bound of `query_flights`, characterised. -/
theorem checkDep_iff (q : FlightParser.Query) (f : FlightRecord) :
    FlightParser.checkDep q f = true ↔
      ∀ v, List.lookup "departuredatetime" q = some v →
        ∃ qd fd, parseEither v = some qd ∧ parseEither f.departuredatetime = some fd ∧
          qd.key ≤ fd.key := by
  cases h : List.lookup "departuredatetime" q with
  | none => simp [FlightParser.checkDep, h]
  | some qdt =>
    cases hq : parseEither qdt with
    | none => simp [FlightParser.checkDep, h, hq]
    | some q_dt =>
      cases hf : parseEither f.departuredatetime with
      | none => simp [FlightParser.checkDep, h, hq, hf]
      | some f_dt => simp [FlightParser.checkDep, h, hq, hf, Nat.not_lt]

/-- The arrival upper bound of `query_flights`, characterised. -/
theorem checkArr_iff (q : FlightParser.Query) (f : FlightRecord) :
    FlightParser.checkArr q f = true ↔
      ∀ v, List.lookup "arrivaldatetime" q = some v →
        ∃ qd fd, parseEither v = some qd ∧ parseEither f.arrivaldatetime = some fd ∧
          fd.key ≤ qd.key := by
  cases h : List.lookup "arrivaldatetime" q with
  | none => simp [FlightParser.checkArr, h]
  | some qdt =>
    cases hq : parseEither qdt with
    | none => simp [FlightParser.checkArr, h, hq]
    | some q_dt =>
      cases hf : parseEither f.arrivaldatetime with
      | none => simp [FlightParser.checkArr, h, hq, hf]
      | some f_dt => simp [FlightParser.checkArr, h, hq, hf, Nat.not_lt]

/-- The price bound of `query_flights`, characterised: both sides must
parse and the flight price must not compare strictly greater. -/
theorem checkPrice_iff (q : FlightParser.Query) (f : FlightRecord) :
    FlightParser.checkPrice q f = true ↔
      ∀ v, List.lookup "price" q = some v →
        ∃ qv fv, pyFloat v = some qv ∧ pyFloat f.price = some fv ∧
          PyFloat.lt qv fv = false := by
  cases h : List.lookup "price" q with
  | none => simp [FlightParser.checkPrice, h]
  | some qp =>
    cases hq : pyFloat qp with
    | none => simp [FlightParser.checkPrice, h, hq]
    | some qv =>
      cases hf : pyFloat f.price with
      | none => simp [FlightParser.checkPrice, h, hq, hf]
      | some fv => simp [FlightParser.checkPrice, h, hq, hf]

/-- C6 amended: `query_flights` returns a subsequence of the store (so
store order is preserved), and a record is returned exactly when it is
in the store and satisfies every present constraint: string equality
for `flightid`/`origin`/`destination`; both sides of a datetime
constraint must parse (in either layout) with the record's departure
not earlier, resp. arrival not later, than the query's; both sides of
a price constraint must parse as floats with the record's price not
comparing strictly greater than the query's (the change the
counterexample forces: with a NaN on either side the exclusion test
`flight_price > query_price` is false, so the record matches, instead
of the claimed inclusive `≤` bound).  Constraint keys other than the
six field names are never consulted. -/
theorem C6_amended (store : List FlightRecord) (q : FlightParser.Query) :
    List.Sublist (FlightParser.query_flights store q) store ∧
    ∀ r, r ∈ FlightParser.query_flights store q ↔ (r ∈ store ∧
      (∀ v, List.lookup "flightid" q = some v → r.flightid = v) ∧
      (∀ v, List.lookup "origin" q = some v → r.origin = v) ∧
      (∀ v, List.lookup "destination" q = some v → r.destination = v) ∧
      (∀ v, List.lookup "departuredatetime" q = some v →
        ∃ qd fd, parseEither v = some qd ∧ parseEither r.departuredatetime = some fd ∧
          qd.key ≤ fd.key) ∧
      (∀ v, List.lookup "arrivaldatetime" q = some v →
        ∃ qd fd, parseEither v = some qd ∧ parseEither r.arrivaldatetime = some fd ∧
          fd.key ≤ qd.key) ∧
      (∀ v, List.lookup "price" q = some v →
        ∃ qv fv, pyFloat v = some qv ∧ pyFloat r.price = some fv ∧
          PyFloat.lt qv fv = false)) := by
  constructor
  · exact List.filter_sublist store
  · intro r
    rw [show FlightParser.query_flights store q =
      store.filter (FlightParser.matchesQuery q) from rfl]
    rw [List.mem_filter]
    simp only [FlightParser.matchesQuery, Bool.and_eq_true, checkEq_iff, checkDep_iff,
      checkArr_iff, checkPrice_iff]
    tauto

/-- C6 witness: the spec's example query against the example record
(origin equality plus a satisfied price bound). -/
theorem C6_witness :
    exampleRecord ∈ FlightParser.query_flights [exampleRecord]
      [("origin", "LHR"), ("price", "300")] := by
  refine ((C6_amended [exampleRecord] [("origin", "LHR"), ("price", "300")]).2
    exampleRecord).mpr ⟨by simp, ?_, ?_, ?_, ?_, ?_, ?_⟩
  · intro v hv
    rw [show List.lookup "flightid" [("origin", "LHR"), ("price", "300")] =
      (none : Option String) from rfl] at hv
    exact Option.noConfusion hv
  · intro v hv
    rw [show List.lookup "origin" [("origin", "LHR"), ("price", "300")] =
      some "LHR" from rfl] at hv
    injection hv with hv'
  · intro v hv
    rw [show List.lookup "destination" [("origin", "LHR"), ("price", "300")] =
      (none : Option String) from rfl] at hv
    exact Option.noConfusion hv
  · intro v hv
    rw [show List.lookup "departuredatetime" [("origin", "LHR"), ("price", "300")] =
      (none : Option String) from rfl] at hv
    exact Option.noConfusion hv
  · intro v hv
    rw [show List.lookup "arrivaldatetime" [("origin", "LHR"), ("price", "300")] =
      (none : Option String) from rfl] at hv
    exact Option.noConfusion hv
  · intro v hv
    rw [show List.lookup "price" [("origin", "LHR"), ("price", "300")] =
      some "300" from rfl] at hv
    cases hv
    exact ⟨PyFloat.fin 300 0, PyFloat.fin 25000 (-2), by decide, by decide, by decide⟩

/-! ## C9 -/

/-- Decoding the JSON form of a record recovers the record. -/
theorem jsonToRecord_recordToJson (r : FlightRecord) :
    FlightParser.jsonToRecord (FlightParser.recordToJson r) = some r := rfl

/-- Decoding an encoded record list recovers the list. -/
theorem decodeRecords_map (l : List FlightRecord) :
    FlightParser.decodeRecords (l.map FlightParser.recordToJson) = some l := by
  induction l with
  | nil => rfl
  | cons r rs ih =>
    simp only [List.map]
    unfold FlightParser.decodeRecords
    rw [jsonToRecord_recordToJson, ih]

/-- C9: exporting the store to a snapshot and reloading from that
snapshot yields the identical ordered record sequence. -/
theorem C9_roundtrip (valid_flights : List FlightRecord) :
    FlightParser.load_json_database (FlightParser.export_valid_flights valid_flights) =
      some valid_flights :=
  decodeRecords_map valid_flights
